import Mathlib

/-!
Verification of the GTF coordinate calculator (source file `app_gtf.py`).

Geometry engine: the pure functions `compute_coordinates` (lines 9 to 39) and
`compute_with_angles` (lines 42 to 88) are embedded over the real numbers.
Python floats become `ℝ`; `math.radians`, `math.degrees`, `math.sin`,
`math.cos`, `math.acos` become the corresponding `Real` functions.  Python
raises `ZeroDivisionError` on float division by zero and `ValueError` when
`math.acos` is applied outside `[-1, 1]`; the fallible variants
`compute_coordinatesE` and `compute_with_anglesE` model those exceptions by
returning `none`, while the total variants use the (total) Lean operations
and describe the values computed on non-raising runs.

Experiment log store: the pandas/Excel code in the Streamlit button handlers
(record result, delete selected, clear all, show experiments) is embedded as
explicit state passing on a `Table` of experiment rows, further below.
-/

noncomputable section GeometryEngine

/-- Embeds `math.radians`: degrees to radians, `d * pi / 180`. -/
def radians (d : ℝ) : ℝ := d * Real.pi / 180

/-- Embeds `math.degrees`: radians to degrees, `r * 180 / pi`. -/
def degrees (r : ℝ) : ℝ := r * 180 / Real.pi

/-- Result dictionary of `compute_coordinates`: keys `x`, `y`, `z`, `D`, `L`. -/
structure CoordResult where
  x : ℝ
  y : ℝ
  z : ℝ
  D : ℝ
  L : ℝ

/-- Embeds `compute_coordinates(x_gtf, y_gtf, z_gtf, arc_deg, collar_deg,
z=100, d_0=55)` of `app_gtf.py` lines 9 to 39, on runs where the division
does not raise (real division is total in Lean; the raising behaviour is
`compute_coordinatesE`). -/
def compute_coordinates (x_gtf y_gtf z_gtf arc_deg collar_deg : ℝ)
    (z : ℝ := 100) (d_0 : ℝ := 55) : CoordResult :=
  let arc_rad := radians arc_deg
  let collar_rad := radians collar_deg
  let D := d_0 - ((z_gtf - z) / Real.sin collar_rad)
  let delta_D := d_0 - D
  let x_new := x_gtf - (delta_D * Real.cos arc_rad)
  let y_new := y_gtf + (delta_D * Real.cos collar_rad)
  let z_new := z_gtf - (delta_D * Real.sin collar_rad)
  { x := x_new, y := y_new, z := z_new, D := D, L := 205 - D }

/-- Fallible embedding of `compute_coordinates`: the division at line 27
raises `ZeroDivisionError` exactly when `math.sin(collar_rad) == 0`. -/
def compute_coordinatesE (x_gtf y_gtf z_gtf arc_deg collar_deg : ℝ)
    (z : ℝ := 100) (d_0 : ℝ := 55) : Option CoordResult :=
  if Real.sin (radians collar_deg) = 0 then none
  else some (compute_coordinates x_gtf y_gtf z_gtf arc_deg collar_deg z d_0)

/-- Result dictionary of `compute_with_angles`: keys `x`, `y`, `z`, `D`, `L`,
`ARC`, `COLLAR`. -/
structure AngleResult where
  x : ℝ
  y : ℝ
  z : ℝ
  D : ℝ
  L : ℝ
  ARC : ℝ
  COLLAR : ℝ

/-- Embeds `compute_with_angles(x_gtf, y_gtf, z_gtf, arc_deg, collar_deg,
z=100, d_0=55)` of `app_gtf.py` lines 42 to 88, on non-raising runs.  The
variable `x0` (resp. `y0`) is the value of the Python variable `x_new`
(resp. `y_new`) before the clamping branches reassign it. -/
def compute_with_angles (x_gtf y_gtf z_gtf arc_deg collar_deg : ℝ)
    (z : ℝ := 100) (d_0 : ℝ := 55) : AngleResult :=
  let arc_rad := radians arc_deg
  let collar_rad := radians collar_deg
  let D := d_0 - ((z_gtf - z) / Real.sin collar_rad)
  let delta_D := d_0 - D
  let x0 := x_gtf - (delta_D * Real.cos arc_rad)
  let x_new := if x0 < 50 then 50 else if x0 > 150 then 150 else x0
  let arc1 := if x0 < 50 ∨ x0 > 150
    then degrees (Real.arccos ((x_gtf - x_new) / delta_D)) else arc_deg
  let y0 := y_gtf + (delta_D * Real.cos collar_rad)
  let y_new := if y0 < 70 then 70 else if y0 > 170 then 170 else y0
  let collar1 := if y0 < 70 ∨ y0 > 170
    then degrees (Real.arccos ((y_new - y_gtf) / delta_D)) else collar_deg
  let z_new := z_gtf - (delta_D * Real.sin collar_rad)
  { x := x_new, y := y_new, z := z_new, D := D, L := 205 - D,
    ARC := arc1, COLLAR := collar1 }

/-- Embeds Python float division: `ZeroDivisionError` (modelled as `none`)
when the denominator is zero. -/
def divE (a b : ℝ) : Option ℝ :=
  if b = 0 then none else some (a / b)

/-- Embeds `math.acos`: raises `ValueError` (modelled as `none`) outside
`[-1, 1]`. -/
def acosE (t : ℝ) : Option ℝ :=
  if t < -1 ∨ 1 < t then none else some (Real.arccos t)

/-- Fallible embedding of `compute_with_angles`: fails at line 61 when
`math.sin(collar_rad) == 0`; in a clamping branch, fails when `delta_D == 0`
(division by zero) or when the acos argument falls outside `[-1, 1]`. -/
def compute_with_anglesE (x_gtf y_gtf z_gtf arc_deg collar_deg : ℝ)
    (z : ℝ := 100) (d_0 : ℝ := 55) : Option AngleResult :=
  if Real.sin (radians collar_deg) = 0 then none else
  let collar_rad := radians collar_deg
  let D := d_0 - ((z_gtf - z) / Real.sin collar_rad)
  let delta_D := d_0 - D
  let x0 := x_gtf - (delta_D * Real.cos (radians arc_deg))
  let xa : Option (ℝ × ℝ) :=
    if x0 < 50 then
      (divE (x_gtf - 50) delta_D).bind fun t => (acosE t).map fun a => (50, degrees a)
    else if x0 > 150 then
      (divE (x_gtf - 150) delta_D).bind fun t => (acosE t).map fun a => (150, degrees a)
    else some (x0, arc_deg)
  xa.bind fun p =>
    let y0 := y_gtf + (delta_D * Real.cos collar_rad)
    let ya : Option (ℝ × ℝ) :=
      if y0 < 70 then
        (divE (70 - y_gtf) delta_D).bind fun t => (acosE t).map fun a => (70, degrees a)
      else if y0 > 170 then
        (divE (170 - y_gtf) delta_D).bind fun t => (acosE t).map fun a => (170, degrees a)
      else some (y0, collar_deg)
    ya.map fun q =>
      { x := p.1, y := q.1, z := z_gtf - (delta_D * Real.sin collar_rad),
        D := D, L := 205 - D, ARC := p.2, COLLAR := q.2 }

/-- Modelled from the spec, section 4.1: the `computeBasic` algorithm written
step by step from the specification text (steps 1 to 7), to be compared with
the implementation `compute_coordinates`. -/
def computeBasicSpec (x y z_in arc collar Z_REF D0 : ℝ) : CoordResult :=
  let arc_rad := radians arc
  let collar_rad := radians collar
  let D := D0 - (z_in - Z_REF) / Real.sin collar_rad
  let deltaD := D0 - D
  { x := x - deltaD * Real.cos arc_rad
    y := y + deltaD * Real.cos collar_rad
    z := z_in - deltaD * Real.sin collar_rad
    D := D
    L := 205 - D }

end GeometryEngine

section LogStore

/-- Persisted row of the experiment log (one Excel row, columns Date, Time,
Updated X, Updated Y, M1 Z, D, Distance to Target, Comment).  The `date`
field holds the Date cell in YYYY-MM-DD form and `time` the Time cell in
HH:MM:SS form; for these fixed-width formats the lexicographic string order
used below coincides with chronological order, and with the order of the
datetime values produced by `pd.to_datetime` on the Date column.  The
`comment` field is `none` when the cell is blank (a pandas NaN), which is
the only cell the application can leave blank. -/
structure ExperimentRecord where
  date : String
  time : String
  updatedX : ℝ
  updatedY : ℝ
  m1Z : ℝ
  D : ℝ
  distToTarget : ℝ
  comment : Option String

/-- Sort key of a row: the pair (Date, Time) under the lexicographic order. -/
def chronKey (r : ExperimentRecord) : Lex (String × String) :=
  toLex (r.date, r.time)

/-- Boolean comparison used to sort rows descending: row `a` may precede
row `b` when the key of `b` is at most the key of `a`.  This embeds
`df.sort_values(by=[Date, Time], ascending=[False, False])`. -/
def recDesc (a b : ExperimentRecord) : Bool :=
  decide (chronKey b ≤ chronKey a)

/-- Embeds the sort step of the handlers: reverse-chronological order by
(Date, Time), newest first. -/
def sortDesc (rows : List ExperimentRecord) : List ExperimentRecord :=
  rows.mergeSort recDesc

/-- Embeds the effect of `df.fillna` on one row: a blank (NaN) comment cell
becomes the empty string. -/
def normComment (r : ExperimentRecord) : ExperimentRecord :=
  { r with comment := some (r.comment.getD "") }

/-- Embeds `df.fillna` applied to the whole table. -/
def fillna (rows : List ExperimentRecord) : List ExperimentRecord :=
  rows.map normComment

/-- Persisted table: the Excel file `data.xlsx` as a column schema plus the
list of rows, in stored order. -/
structure LogTable where
  columns : List String
  rows : List ExperimentRecord

/-- Fixed column order of the persisted format. -/
def standardColumns : List String :=
  ["Date", "Time", "Updated X", "Updated Y", "M1 Z", "D",
   "Distance to Target", "Comment"]

/-- Embeds the read path of `show_experiments` (lines 402 to 410):
`pd.read_excel`, then `fillna`, then sort descending by (Date, Time).  This
is the listAll operation of the spec. -/
def listAll (t : LogTable) : List ExperimentRecord :=
  sortDesc (fillna t.rows)

/-- Embeds the construction of `new_data` in the Record Result handler
(lines 352 to 361): the computed results plus a comment, where a falsy
(empty) comment is stored as the empty string. -/
def mkRecord (date time : String) (res : CoordResult) (comment : String) :
    ExperimentRecord :=
  { date := date, time := time, updatedX := res.x, updatedY := res.y,
    m1Z := res.z, D := res.D, distToTarget := res.L,
    comment := some (if comment = "" then "" else comment) }

/-- Embeds the Record Result handler (lines 363 to 383): read the existing
table if the file exists (else start a fresh one-row table), append the new
row, sort descending by (Date, Time), replace NaN cells by empty strings,
and write the whole table back. -/
def recordResult (store : Option LogTable) (rec : ExperimentRecord) : LogTable :=
  let rows := match store with
    | some t => t.rows ++ [rec]
    | none => [rec]
  let cols := match store with
    | some t => t.columns
    | none => standardColumns
  { columns := cols, rows := fillna (sortDesc rows) }

/-- Embeds `[i for i, selected in enumerate(st.session_state.selected_experiments)
if selected]` (line 433): positions of the set checkboxes, counting from `i`. -/
def selectedIndicesAux : ℕ → List Bool → List ℕ
  | _, [] => []
  | i, b :: bs =>
    if b then i :: selectedIndicesAux (i + 1) bs else selectedIndicesAux (i + 1) bs

/-- Positions of the set checkboxes, counting from zero. -/
def selectedIndices (sel : List Bool) : List ℕ :=
  selectedIndicesAux 0 sel

/-- Embeds `df.drop(selected_indices)` on a positionally indexed table:
keep the rows whose position (counting from the first argument) is not in
the index list. -/
def dropIndicesAux {α : Type} : ℕ → List α → List ℕ → List α
  | _, [], _ => []
  | i, a :: as, idxs =>
    if i ∈ idxs then dropIndicesAux (i + 1) as idxs
    else a :: dropIndicesAux (i + 1) as idxs

/-- Rows remaining after dropping the given positions, counting from zero. -/
def dropIndices {α : Type} (rows : List α) (idxs : List ℕ) : List α :=
  dropIndicesAux 0 rows idxs

/-- Embeds the Delete Selected handler (lines 431 to 447): with an empty
selection nothing is written and nothing is deleted; otherwise the selected
positions of the currently displayed (sorted) table are dropped, the rest is
re-sorted, NaN cells are replaced by empty strings, and the table is written
back.  Returns the new table and the reported number of deleted rows. -/
def deleteSelected (t : LogTable) (sel : List Bool) : LogTable × ℕ :=
  let idxs := selectedIndices sel
  if idxs = [] then (t, 0)
  else
    ({ columns := t.columns,
       rows := fillna (sortDesc (dropIndices (listAll t) idxs)) },
     idxs.length)

/-- Embeds the Clear All confirmation handler (lines 458 to 461):
`pd.DataFrame(columns=df.columns)` written back, an empty table with the
same column schema. -/
def clearAll (t : LogTable) : LogTable :=
  { columns := t.columns, rows := [] }

/-- The displayed order is non-increasing in the (Date, Time) key. -/
def SortedByKeyDesc (rows : List ExperimentRecord) : Prop :=
  rows.Sorted fun a b => chronKey b ≤ chronKey a

end LogStore

section SourceIntermediates

/-- Intermediate value `D` shared by both geometry functions (lines 27 and
61 of the source). -/
noncomputable def dDist (z_gtf collar_deg z d_0 : ℝ) : ℝ :=
  d_0 - ((z_gtf - z) / Real.sin (radians collar_deg))

/-- Intermediate value `delta_D` shared by both geometry functions (lines 28
and 62 of the source). -/
noncomputable def delta_D (z_gtf collar_deg z d_0 : ℝ) : ℝ :=
  d_0 - dDist z_gtf collar_deg z d_0

end SourceIntermediates

section SampleData

/-- Sample row used by the concrete witnesses; its comment is already a
(non-null) string, so normalisation leaves it unchanged. -/
def sampleRow : ExperimentRecord :=
  { date := "2025-01-02", time := "10:00:00", updatedX := 1, updatedY := 2,
    m1Z := 3, D := 4, distToTarget := 5, comment := some "ok" }

/-- Sample one-row table used by the concrete witnesses. -/
def sampleTable : LogTable :=
  { columns := standardColumns, rows := [sampleRow] }

end SampleData

section TrigHelpers

theorem radians_ninety : radians 90 = Real.pi / 2 := by
  unfold radians; ring

theorem sin_radians_ninety : Real.sin (radians 90) = 1 := by
  rw [radians_ninety, Real.sin_pi_div_two]

theorem cos_radians_ninety : Real.cos (radians 90) = 0 := by
  rw [radians_ninety, Real.cos_pi_div_two]

theorem sin_radians_ninety_ne_zero : Real.sin (radians 90) ≠ 0 := by
  rw [sin_radians_ninety]; exact one_ne_zero

theorem delta_D_ninety : delta_D 110 90 100 55 = 10 := by
  unfold delta_D dDist
  rw [sin_radians_ninety]; norm_num

theorem cc_ninety_x : (compute_coordinates 140 140 110 90 90 100 55).x = 140 := by
  show (140 : ℝ) - (55 - (55 - ((110 - 100) / Real.sin (radians 90))))
      * Real.cos (radians 90) = 140
  rw [cos_radians_ninety]; ring

theorem cc_ninety_y : (compute_coordinates 140 140 110 90 90 100 55).y = 140 := by
  show (140 : ℝ) + (55 - (55 - ((110 - 100) / Real.sin (radians 90))))
      * Real.cos (radians 90) = 140
  rw [cos_radians_ninety]; ring

end TrigHelpers

/-- C1: for every input and constants with nonzero sine of the collar angle,
`compute_coordinates` returns exactly the result of the spec algorithm
(steps 1 to 7 of section 4.1, embedded as `computeBasicSpec`). -/
theorem compute_coordinates_matches_spec
    (x_gtf y_gtf z_gtf arc_deg collar_deg Z_REF D0 : ℝ)
    (hsin : Real.sin (radians collar_deg) ≠ 0) :
    compute_coordinates x_gtf y_gtf z_gtf arc_deg collar_deg Z_REF D0 =
      computeBasicSpec x_gtf y_gtf z_gtf arc_deg collar_deg Z_REF D0 := rfl

/-- Witness for C1 at the concrete input (140, 140, 110, 90, 90, 100, 55). -/
theorem compute_coordinates_matches_spec_witness :
    Real.sin (radians 90) ≠ 0 ∧
    compute_coordinates 140 140 110 90 90 100 55 =
      computeBasicSpec 140 140 110 90 90 100 55 :=
  ⟨sin_radians_ninety_ne_zero,
   compute_coordinates_matches_spec 140 140 110 90 90 100 55
     sin_radians_ninety_ne_zero⟩

/-- C10: with nonzero sine of the collar angle, the z output of both
geometry functions equals the reference height constant exactly, for every
input. -/
theorem z_output_eq_zref (x_gtf y_gtf z_gtf arc_deg collar_deg Z_REF D0 : ℝ)
    (hsin : Real.sin (radians collar_deg) ≠ 0) :
    (compute_coordinates x_gtf y_gtf z_gtf arc_deg collar_deg Z_REF D0).z = Z_REF ∧
    (compute_with_angles x_gtf y_gtf z_gtf arc_deg collar_deg Z_REF D0).z = Z_REF := by
  have key : z_gtf - (D0 - (D0 - ((z_gtf - Z_REF) / Real.sin (radians collar_deg))))
      * Real.sin (radians collar_deg) = Z_REF := by
    field_simp
  exact ⟨key, key⟩

/-- C3: when the sine of the collar angle is nonzero and the unclamped x
(the x field of `compute_coordinates`) lies in [50, 150] and the unclamped y
lies in [70, 170], `compute_with_angles` agrees with `compute_coordinates`
on x, y, z, D and L, and returns the input arc and collar unchanged. -/
theorem no_clamp_agreement (x_gtf y_gtf z_gtf arc_deg collar_deg Z_REF D0 : ℝ)
    (hsin : Real.sin (radians collar_deg) ≠ 0)
    (hx1 : 50 ≤ (compute_coordinates x_gtf y_gtf z_gtf arc_deg collar_deg Z_REF D0).x)
    (hx2 : (compute_coordinates x_gtf y_gtf z_gtf arc_deg collar_deg Z_REF D0).x ≤ 150)
    (hy1 : 70 ≤ (compute_coordinates x_gtf y_gtf z_gtf arc_deg collar_deg Z_REF D0).y)
    (hy2 : (compute_coordinates x_gtf y_gtf z_gtf arc_deg collar_deg Z_REF D0).y ≤ 170) :
    (compute_with_angles x_gtf y_gtf z_gtf arc_deg collar_deg Z_REF D0).x =
      (compute_coordinates x_gtf y_gtf z_gtf arc_deg collar_deg Z_REF D0).x ∧
    (compute_with_angles x_gtf y_gtf z_gtf arc_deg collar_deg Z_REF D0).y =
      (compute_coordinates x_gtf y_gtf z_gtf arc_deg collar_deg Z_REF D0).y ∧
    (compute_with_angles x_gtf y_gtf z_gtf arc_deg collar_deg Z_REF D0).z =
      (compute_coordinates x_gtf y_gtf z_gtf arc_deg collar_deg Z_REF D0).z ∧
    (compute_with_angles x_gtf y_gtf z_gtf arc_deg collar_deg Z_REF D0).D =
      (compute_coordinates x_gtf y_gtf z_gtf arc_deg collar_deg Z_REF D0).D ∧
    (compute_with_angles x_gtf y_gtf z_gtf arc_deg collar_deg Z_REF D0).L =
      (compute_coordinates x_gtf y_gtf z_gtf arc_deg collar_deg Z_REF D0).L ∧
    (compute_with_angles x_gtf y_gtf z_gtf arc_deg collar_deg Z_REF D0).ARC = arc_deg ∧
    (compute_with_angles x_gtf y_gtf z_gtf arc_deg collar_deg Z_REF D0).COLLAR =
      collar_deg := by
  simp only [compute_coordinates] at hx1 hx2 hy1 hy2
  simp only [compute_coordinates, compute_with_angles]
  have hx1n : ¬ (x_gtf - (D0 - (D0 - ((z_gtf - Z_REF) / Real.sin (radians collar_deg))))
      * Real.cos (radians arc_deg) < 50) := not_lt.mpr hx1
  have hx2n : ¬ (x_gtf - (D0 - (D0 - ((z_gtf - Z_REF) / Real.sin (radians collar_deg))))
      * Real.cos (radians arc_deg) > 150) := not_lt.mpr hx2
  have hy1n : ¬ (y_gtf + (D0 - (D0 - ((z_gtf - Z_REF) / Real.sin (radians collar_deg))))
      * Real.cos (radians collar_deg) < 70) := not_lt.mpr hy1
  have hy2n : ¬ (y_gtf + (D0 - (D0 - ((z_gtf - Z_REF) / Real.sin (radians collar_deg))))
      * Real.cos (radians collar_deg) > 170) := not_lt.mpr hy2
  refine ⟨?_, ?_, trivial, trivial, trivial, ?_, ?_⟩
  · rw [if_neg hx1n, if_neg hx2n]
  · rw [if_neg hy1n, if_neg hy2n]
  · rw [if_neg (not_or.mpr ⟨hx1n, hx2n⟩)]
  · rw [if_neg (not_or.mpr ⟨hy1n, hy2n⟩)]

/-- C2: on valid inputs (nonzero sine of the collar angle, nonzero delta_D),
`compute_with_angles` clamps the output x to [50, 150] and, when the
unclamped x falls outside that interval, reports the effective arc
`degrees (arccos ((x_gtf - x_clamped) / delta_D))`; when the unclamped x is
in range, x and the input arc are returned unchanged.  Symmetrically the
output y is clamped to [70, 170] with effective collar
`degrees (arccos ((y_clamped - y_gtf) / delta_D))`, and z is never clamped
(it always equals the unclamped z of `compute_coordinates`). -/
theorem clamp_behaviour (x_gtf y_gtf z_gtf arc_deg collar_deg Z_REF D0 : ℝ)
    (hsin : Real.sin (radians collar_deg) ≠ 0)
    (hdel : delta_D z_gtf collar_deg Z_REF D0 ≠ 0) :
    50 ≤ (compute_with_angles x_gtf y_gtf z_gtf arc_deg collar_deg Z_REF D0).x ∧
    (compute_with_angles x_gtf y_gtf z_gtf arc_deg collar_deg Z_REF D0).x ≤ 150 ∧
    70 ≤ (compute_with_angles x_gtf y_gtf z_gtf arc_deg collar_deg Z_REF D0).y ∧
    (compute_with_angles x_gtf y_gtf z_gtf arc_deg collar_deg Z_REF D0).y ≤ 170 ∧
    ((compute_coordinates x_gtf y_gtf z_gtf arc_deg collar_deg Z_REF D0).x < 50 ∨
     (compute_coordinates x_gtf y_gtf z_gtf arc_deg collar_deg Z_REF D0).x > 150 →
      (compute_with_angles x_gtf y_gtf z_gtf arc_deg collar_deg Z_REF D0).ARC =
        degrees (Real.arccos
          ((x_gtf - (compute_with_angles x_gtf y_gtf z_gtf arc_deg collar_deg Z_REF D0).x)
            / delta_D z_gtf collar_deg Z_REF D0))) ∧
    (50 ≤ (compute_coordinates x_gtf y_gtf z_gtf arc_deg collar_deg Z_REF D0).x ∧
     (compute_coordinates x_gtf y_gtf z_gtf arc_deg collar_deg Z_REF D0).x ≤ 150 →
      (compute_with_angles x_gtf y_gtf z_gtf arc_deg collar_deg Z_REF D0).x =
        (compute_coordinates x_gtf y_gtf z_gtf arc_deg collar_deg Z_REF D0).x ∧
      (compute_with_angles x_gtf y_gtf z_gtf arc_deg collar_deg Z_REF D0).ARC = arc_deg) ∧
    ((compute_coordinates x_gtf y_gtf z_gtf arc_deg collar_deg Z_REF D0).y < 70 ∨
     (compute_coordinates x_gtf y_gtf z_gtf arc_deg collar_deg Z_REF D0).y > 170 →
      (compute_with_angles x_gtf y_gtf z_gtf arc_deg collar_deg Z_REF D0).COLLAR =
        degrees (Real.arccos
          (((compute_with_angles x_gtf y_gtf z_gtf arc_deg collar_deg Z_REF D0).y - y_gtf)
            / delta_D z_gtf collar_deg Z_REF D0))) ∧
    (70 ≤ (compute_coordinates x_gtf y_gtf z_gtf arc_deg collar_deg Z_REF D0).y ∧
     (compute_coordinates x_gtf y_gtf z_gtf arc_deg collar_deg Z_REF D0).y ≤ 170 →
      (compute_with_angles x_gtf y_gtf z_gtf arc_deg collar_deg Z_REF D0).y =
        (compute_coordinates x_gtf y_gtf z_gtf arc_deg collar_deg Z_REF D0).y ∧
      (compute_with_angles x_gtf y_gtf z_gtf arc_deg collar_deg Z_REF D0).COLLAR =
        collar_deg) ∧
    (compute_with_angles x_gtf y_gtf z_gtf arc_deg collar_deg Z_REF D0).z =
      (compute_coordinates x_gtf y_gtf z_gtf arc_deg collar_deg Z_REF D0).z := by
  simp only [compute_coordinates, compute_with_angles, delta_D, dDist]
  constructor
  · split_ifs <;> linarith
  constructor
  · split_ifs <;> linarith
  constructor
  · split_ifs <;> linarith
  constructor
  · split_ifs <;> linarith
  refine ⟨?_, ?_, ?_, ?_, trivial⟩
  · rintro (h | h)
    · rw [if_pos h, if_pos (Or.inl h)]
    · have h5 : ¬ (x_gtf - (D0 - (D0 - ((z_gtf - Z_REF) / Real.sin (radians collar_deg))))
          * Real.cos (radians arc_deg) < 50) := by linarith
      rw [if_neg h5, if_pos h, if_pos (Or.inr h)]
  · rintro ⟨h1, h2⟩
    rw [if_neg (not_lt.mpr h1), if_neg (not_lt.mpr h2),
      if_neg (not_or.mpr ⟨not_lt.mpr h1, not_lt.mpr h2⟩)]
    exact ⟨rfl, rfl⟩
  · rintro (h | h)
    · rw [if_pos h, if_pos (Or.inl h)]
    · have h7 : ¬ (y_gtf + (D0 - (D0 - ((z_gtf - Z_REF) / Real.sin (radians collar_deg))))
          * Real.cos (radians collar_deg) < 70) := by linarith
      rw [if_neg h7, if_pos h, if_pos (Or.inr h)]
  · rintro ⟨h1, h2⟩
    rw [if_neg (not_lt.mpr h1), if_neg (not_lt.mpr h2),
      if_neg (not_or.mpr ⟨not_lt.mpr h1, not_lt.mpr h2⟩)]
    exact ⟨rfl, rfl⟩

/-- Witness for C2 at the concrete input (140, 140, 110, 90, 90, 100, 55):
the hypotheses hold (sine is 1, delta_D is 10), x stays in [50, 150], and
since the unclamped x is 140 the input arc is reported unchanged. -/
theorem clamp_behaviour_witness :
    Real.sin (radians 90) ≠ 0 ∧ delta_D 110 90 100 55 ≠ 0 ∧
    50 ≤ (compute_with_angles 140 140 110 90 90 100 55).x ∧
    (compute_with_angles 140 140 110 90 90 100 55).x ≤ 150 ∧
    (compute_with_angles 140 140 110 90 90 100 55).ARC = 90 := by
  have hdel : delta_D 110 90 100 55 ≠ 0 := by rw [delta_D_ninety]; norm_num
  have h := clamp_behaviour 140 140 110 90 90 100 55 sin_radians_ninety_ne_zero hdel
  refine ⟨sin_radians_ninety_ne_zero, hdel, h.1, h.2.1, ?_⟩
  exact (h.2.2.2.2.2.1 ⟨by rw [cc_ninety_x]; norm_num, by rw [cc_ninety_x]; norm_num⟩).2

/-- Witness for C3 at the concrete input (140, 140, 110, 90, 90, 100, 55),
where neither coordinate is clamped. -/
theorem no_clamp_agreement_witness :
    Real.sin (radians 90) ≠ 0 ∧
    50 ≤ (compute_coordinates 140 140 110 90 90 100 55).x ∧
    (compute_coordinates 140 140 110 90 90 100 55).x ≤ 150 ∧
    70 ≤ (compute_coordinates 140 140 110 90 90 100 55).y ∧
    (compute_coordinates 140 140 110 90 90 100 55).y ≤ 170 ∧
    (compute_with_angles 140 140 110 90 90 100 55).x =
      (compute_coordinates 140 140 110 90 90 100 55).x ∧
    (compute_with_angles 140 140 110 90 90 100 55).ARC = 90 ∧
    (compute_with_angles 140 140 110 90 90 100 55).COLLAR = 90 := by
  have hx1 : 50 ≤ (compute_coordinates 140 140 110 90 90 100 55).x := by
    rw [cc_ninety_x]; norm_num
  have hx2 : (compute_coordinates 140 140 110 90 90 100 55).x ≤ 150 := by
    rw [cc_ninety_x]; norm_num
  have hy1 : 70 ≤ (compute_coordinates 140 140 110 90 90 100 55).y := by
    rw [cc_ninety_y]; norm_num
  have hy2 : (compute_coordinates 140 140 110 90 90 100 55).y ≤ 170 := by
    rw [cc_ninety_y]; norm_num
  have h := no_clamp_agreement 140 140 110 90 90 100 55
    sin_radians_ninety_ne_zero hx1 hx2 hy1 hy2
  exact ⟨sin_radians_ninety_ne_zero, hx1, hx2, hy1, hy2, h.1,
    h.2.2.2.2.2.1, h.2.2.2.2.2.2⟩

section CollarSingularity

theorem sin_radians_eq_zero_iff (c : ℝ) :
    Real.sin (radians c) = 0 ↔ ∃ k : ℤ, c = 180 * k := by
  rw [radians, Real.sin_eq_zero_iff]
  constructor
  · rintro ⟨n, hn⟩
    refine ⟨n, ?_⟩
    have h2 : ((n : ℝ) * 180) * Real.pi = c * Real.pi := by linarith
    have h3 := mul_right_cancel₀ Real.pi_ne_zero h2
    linarith
  · rintro ⟨k, rfl⟩
    exact ⟨k, by ring⟩

end CollarSingularity

/-- C5 amended: `compute_coordinates` raises the division-by-zero domain
error exactly when the collar is an integer multiple of 180 degrees (and
succeeds for every other collar value); `compute_with_angles` raises it at
least whenever the sine of the collar angle vanishes, but can also fail for
other collar values through the acos recomputation in a clamping branch
(see the counterexample). -/
theorem domain_error_characterisation
    (x_gtf y_gtf z_gtf arc_deg collar_deg Z_REF D0 : ℝ) :
    (compute_coordinatesE x_gtf y_gtf z_gtf arc_deg collar_deg Z_REF D0 = none ↔
      ∃ k : ℤ, collar_deg = 180 * k) ∧
    (Real.sin (radians collar_deg) = 0 →
      compute_with_anglesE x_gtf y_gtf z_gtf arc_deg collar_deg Z_REF D0 = none) := by
  constructor
  · rw [← sin_radians_eq_zero_iff]
    unfold compute_coordinatesE
    constructor
    · intro h
      by_contra hs
      rw [if_neg hs] at h
      exact Option.some_ne_none _ h
    · intro h
      rw [if_pos h]
  · intro h
    unfold compute_with_anglesE
    rw [if_pos h]

/-- Witness for C5 (amended form) at collar 180: the computation fails. -/
theorem domain_error_characterisation_witness :
    compute_coordinatesE 140 140 110 90 180 100 55 = none :=
  (domain_error_characterisation 140 140 110 90 180 100 55).1.mpr ⟨1, by norm_num⟩

/-- C5 counterexample: at input (200, 140, 110, arc 90, collar 90) the
collar is not an integer multiple of 180 and the sine of the collar angle
is nonzero, yet `compute_with_anglesE` fails: the x clamping branch applies
acos to (200 - 150) / 10 = 5, outside [-1, 1]. -/
theorem angle_clamp_failure_beyond_collar :
    compute_with_anglesE 200 140 110 90 90 100 55 = none ∧
    Real.sin (radians 90) ≠ 0 ∧ ¬ ∃ k : ℤ, (90 : ℝ) = 180 * k := by
  refine ⟨?_, sin_radians_ninety_ne_zero, ?_⟩
  · norm_num [compute_with_anglesE, divE, acosE, sin_radians_ninety,
      cos_radians_ninety]
  · rintro ⟨k, hk⟩
    have h2 : (180 * k : ℤ) = 90 := by exact_mod_cast hk.symm
    omega

section SeventyFive

theorem radians_seventyfive : radians 75 = Real.pi / 4 + Real.pi / 6 := by
  unfold radians; ring

theorem sqrt_six_eq : Real.sqrt 6 = Real.sqrt 2 * Real.sqrt 3 := by
  rw [← Real.sqrt_mul (by norm_num : (0:ℝ) ≤ 2) 3]
  norm_num

theorem sin_radians_seventyfive :
    Real.sin (radians 75) = (Real.sqrt 6 + Real.sqrt 2) / 4 := by
  rw [radians_seventyfive, Real.sin_add, Real.sin_pi_div_four, Real.cos_pi_div_six,
    Real.cos_pi_div_four, Real.sin_pi_div_six, sqrt_six_eq]
  ring

theorem cos_radians_seventyfive :
    Real.cos (radians 75) = (Real.sqrt 6 - Real.sqrt 2) / 4 := by
  rw [radians_seventyfive, Real.cos_add, Real.sin_pi_div_four, Real.cos_pi_div_six,
    Real.cos_pi_div_four, Real.sin_pi_div_six, sqrt_six_eq]
  ring

theorem sqrt_two_lb : (1.414213 : ℝ) < Real.sqrt 2 :=
  (Real.lt_sqrt (by norm_num)).mpr (by norm_num)

theorem sqrt_two_ub : Real.sqrt 2 < 1.414214 :=
  (Real.sqrt_lt' (by norm_num)).mpr (by norm_num)

theorem sqrt_three_lb : (1.732050 : ℝ) < Real.sqrt 3 :=
  (Real.lt_sqrt (by norm_num)).mpr (by norm_num)

theorem sqrt_three_ub : Real.sqrt 3 < 1.732051 :=
  (Real.sqrt_lt' (by norm_num)).mpr (by norm_num)

theorem sqrt_six_lb : (2.449489 : ℝ) < Real.sqrt 6 :=
  (Real.lt_sqrt (by norm_num)).mpr (by norm_num)

theorem sqrt_six_ub : Real.sqrt 6 < 2.449490 :=
  (Real.sqrt_lt' (by norm_num)).mpr (by norm_num)

theorem sin_radians_seventyfive_ne_zero : Real.sin (radians 75) ≠ 0 := by
  rw [sin_radians_seventyfive]
  nlinarith [sqrt_two_lb, sqrt_six_lb]

theorem ten_div_sin_seventyfive :
    (110 - 100 : ℝ) / ((Real.sqrt 6 + Real.sqrt 2) / 4) =
      10 * Real.sqrt 6 - 10 * Real.sqrt 2 := by
  have h6 : Real.sqrt 6 * Real.sqrt 6 = 6 := Real.mul_self_sqrt (by norm_num)
  have h2 : Real.sqrt 2 * Real.sqrt 2 = 2 := Real.mul_self_sqrt (by norm_num)
  rw [div_eq_iff (by nlinarith [sqrt_two_lb, sqrt_six_lb] : (Real.sqrt 6 + Real.sqrt 2) / 4 ≠ 0)]
  linear_combination (-(10:ℝ)/4) * h6 + ((10:ℝ)/4) * h2

theorem cc_seventyfive_D :
    (compute_coordinates 140 140 110 90 75 100 55).D =
      55 - (10 * Real.sqrt 6 - 10 * Real.sqrt 2) := by
  show (55 : ℝ) - ((110 - 100) / Real.sin (radians 75)) = _
  rw [sin_radians_seventyfive, ten_div_sin_seventyfive]

theorem sqrt_six_mul_sqrt_two : Real.sqrt 6 * Real.sqrt 2 = 2 * Real.sqrt 3 := by
  rw [sqrt_six_eq]
  have h2 : Real.sqrt 2 * Real.sqrt 2 = 2 := Real.mul_self_sqrt (by norm_num)
  linear_combination Real.sqrt 3 * h2

theorem cc_seventyfive_y :
    (compute_coordinates 140 140 110 90 75 100 55).y = 160 - 10 * Real.sqrt 3 := by
  show (140 : ℝ) + (55 - (55 - ((110 - 100) / Real.sin (radians 75))))
      * Real.cos (radians 75) = _
  rw [sin_radians_seventyfive, cos_radians_seventyfive, ten_div_sin_seventyfive]
  have h6 : Real.sqrt 6 * Real.sqrt 6 = 6 := Real.mul_self_sqrt (by norm_num)
  have h2 : Real.sqrt 2 * Real.sqrt 2 = 2 := Real.mul_self_sqrt (by norm_num)
  linear_combination ((10:ℝ)/4) * h6 + ((10:ℝ)/4) * h2 - 5 * sqrt_six_mul_sqrt_two

theorem cc_seventyfive_z :
    (compute_coordinates 140 140 110 90 75 100 55).z = 100 := by
  show (110 : ℝ) - (55 - (55 - ((110 - 100) / Real.sin (radians 75))))
      * Real.sin (radians 75) = _
  rw [sin_radians_seventyfive, ten_div_sin_seventyfive]
  have h6 : Real.sqrt 6 * Real.sqrt 6 = 6 := Real.mul_self_sqrt (by norm_num)
  have h2 : Real.sqrt 2 * Real.sqrt 2 = 2 := Real.mul_self_sqrt (by norm_num)
  linear_combination (-(10:ℝ)/4) * h6 + ((10:ℝ)/4) * h2

theorem cc_seventyfive_L :
    (compute_coordinates 140 140 110 90 75 100 55).L =
      150 + (10 * Real.sqrt 6 - 10 * Real.sqrt 2) := by
  show (205 : ℝ) - (55 - ((110 - 100) / Real.sin (radians 75))) = _
  rw [sin_radians_seventyfive, ten_div_sin_seventyfive]
  ring

end SeventyFive

/-- C4 counterexample: at input (140, 140, 110, arc 90, collar 75) with
Z_REF 100 and D0 55, the D computed by the code is within 0.001 of 44.6472,
more than 9 away from the claimed 54.6643, and the computed z is 100,
more than 9 away from the claimed 109.6757: the claimed approximations do
not hold for any small tolerance. -/
theorem concrete_scenario_counterexample :
    |(compute_coordinates 140 140 110 90 75 100 55).D - 54.6643| > 9 ∧
    |(compute_coordinates 140 140 110 90 75 100 55).z - 109.6757| > 9 := by
  constructor
  · have hD : (compute_coordinates 140 140 110 90 75 100 55).D - 54.6643 < -9 := by
      rw [cc_seventyfive_D]
      nlinarith [sqrt_two_ub, sqrt_six_lb]
    calc (9 : ℝ) < -((compute_coordinates 140 140 110 90 75 100 55).D - 54.6643) := by
          linarith
      _ ≤ |(compute_coordinates 140 140 110 90 75 100 55).D - 54.6643| :=
          neg_le_abs _
  · have hz : (compute_coordinates 140 140 110 90 75 100 55).z - 109.6757 < -9 := by
      rw [cc_seventyfive_z]; norm_num
    calc (9 : ℝ) < -((compute_coordinates 140 140 110 90 75 100 55).z - 109.6757) := by
          linarith
      _ ≤ |(compute_coordinates 140 140 110 90 75 100 55).z - 109.6757| :=
          neg_le_abs _

/-- C4 amended: at the concrete input (140, 140, 110, arc 90, collar 75,
Z_REF 100, D0 55), `compute_coordinates` returns D within 0.001 of 44.6472
(so deltaD = 55 - D is within 0.001 of 10.3528), x exactly 140, y within
0.001 of 142.6795, z exactly 100, and L within 0.001 of 160.3528. -/
theorem concrete_scenario_values :
    (compute_coordinates 140 140 110 90 75 100 55).x = 140 ∧
    (compute_coordinates 140 140 110 90 75 100 55).z = 100 ∧
    |(compute_coordinates 140 140 110 90 75 100 55).D - 44.6472| < 0.001 ∧
    |(55 - (compute_coordinates 140 140 110 90 75 100 55).D) - 10.3528| < 0.001 ∧
    |(compute_coordinates 140 140 110 90 75 100 55).y - 142.6795| < 0.001 ∧
    |(compute_coordinates 140 140 110 90 75 100 55).L - 160.3528| < 0.001 := by
  refine ⟨?_, cc_seventyfive_z, ?_, ?_, ?_, ?_⟩
  · show (140 : ℝ) - (55 - (55 - ((110 - 100) / Real.sin (radians 75))))
        * Real.cos (radians 90) = 140
    rw [cos_radians_ninety]; ring
  · rw [cc_seventyfive_D, abs_sub_lt_iff]
    constructor <;> nlinarith [sqrt_two_lb, sqrt_two_ub, sqrt_six_lb, sqrt_six_ub]
  · rw [cc_seventyfive_D, abs_sub_lt_iff]
    constructor <;> nlinarith [sqrt_two_lb, sqrt_two_ub, sqrt_six_lb, sqrt_six_ub]
  · rw [cc_seventyfive_y, abs_sub_lt_iff]
    constructor <;> nlinarith [sqrt_three_lb, sqrt_three_ub]
  · rw [cc_seventyfive_L, abs_sub_lt_iff]
    constructor <;> nlinarith [sqrt_two_lb, sqrt_two_ub, sqrt_six_lb, sqrt_six_ub]

/-- Witness for C10 at the concrete input (140, 140, 110, 90, 90, 100, 55). -/
theorem z_output_eq_zref_witness :
    Real.sin (radians 90) ≠ 0 ∧
    (compute_coordinates 140 140 110 90 90 100 55).z = 100 ∧
    (compute_with_angles 140 140 110 90 90 100 55).z = 100 :=
  ⟨sin_radians_ninety_ne_zero,
   (z_output_eq_zref 140 140 110 90 90 100 55 sin_radians_ninety_ne_zero).1,
   (z_output_eq_zref 140 140 110 90 90 100 55 sin_radians_ninety_ne_zero).2⟩



section LogStoreLemmas

theorem recDesc_trans (a b c : ExperimentRecord)
    (h1 : recDesc a b = true) (h2 : recDesc b c = true) : recDesc a c = true := by
  simp only [recDesc, decide_eq_true_eq] at h1 h2 ⊢
  exact le_trans h2 h1

theorem recDesc_total (a b : ExperimentRecord) :
    (recDesc a b || recDesc b a) = true := by
  simp only [recDesc, Bool.or_eq_true, decide_eq_true_eq]
  exact le_total (chronKey b) (chronKey a)

theorem sortDesc_sorted (rows : List ExperimentRecord) :
    SortedByKeyDesc (sortDesc rows) := by
  have h := List.sorted_mergeSort recDesc_trans recDesc_total rows
  exact List.Pairwise.imp (fun hab => of_decide_eq_true hab) h

theorem sortDesc_perm (rows : List ExperimentRecord) :
    (sortDesc rows).Perm rows :=
  List.mergeSort_perm rows recDesc

theorem mem_sortDesc {a : ExperimentRecord} {rows : List ExperimentRecord} :
    a ∈ sortDesc rows ↔ a ∈ rows :=
  List.mem_mergeSort

theorem normComment_idem (r : ExperimentRecord) :
    normComment (normComment r) = normComment r := rfl

theorem comment_normComment (r : ExperimentRecord) :
    (normComment r).comment ≠ none := by
  simp [normComment]

theorem listAll_normalized (t : LogTable) :
    ∀ r ∈ listAll t, normComment r = r := by
  intro r hr
  have h1 : r ∈ fillna t.rows := mem_sortDesc.mp hr
  obtain ⟨a, _, rfl⟩ := List.mem_map.mp h1
  exact normComment_idem a

theorem fillna_id_of_normalized (l : List ExperimentRecord)
    (h : ∀ r ∈ l, normComment r = r) : fillna l = l := by
  induction l with
  | nil => rfl
  | cons a as ih =>
    have ha := h a (List.mem_cons_self a as)
    have has : ∀ r ∈ as, normComment r = r := fun r hr => h r (List.mem_cons_of_mem a hr)
    simp [fillna] at ih ⊢
    exact ⟨ha, ih has⟩

theorem mem_dropIndicesAux {α : Type} {a : α} :
    ∀ (i : ℕ) (l : List α) (idxs : List ℕ), a ∈ dropIndicesAux i l idxs → a ∈ l := by
  intro i l
  induction l generalizing i with
  | nil => intro idxs h; exact absurd h (List.not_mem_nil a)
  | cons b bs ih =>
    intro idxs h
    by_cases hmem : i ∈ idxs
    · simp only [dropIndicesAux, if_pos hmem] at h
      exact List.mem_cons_of_mem b (ih (i + 1) idxs h)
    · simp only [dropIndicesAux, if_neg hmem] at h
      rcases List.mem_cons.mp h with h1 | h1
      · exact h1 ▸ List.mem_cons_self b bs
      · exact List.mem_cons_of_mem b (ih (i + 1) idxs h1)

theorem mem_dropIndices {α : Type} {a : α} {l : List α} {idxs : List ℕ}
    (h : a ∈ dropIndices l idxs) : a ∈ l :=
  mem_dropIndicesAux 0 l idxs h

theorem selectedIndicesAux_ge :
    ∀ (i : ℕ) (bs : List Bool) (j : ℕ), j ∈ selectedIndicesAux i bs → i ≤ j := by
  intro i bs
  induction bs generalizing i with
  | nil => intro j h; exact absurd h (List.not_mem_nil j)
  | cons b bs ih =>
    intro j h
    by_cases hb : b
    · simp only [selectedIndicesAux, if_pos hb] at h
      rcases List.mem_cons.mp h with h1 | h1
      · exact h1 ▸ le_refl j
      · exact le_trans (Nat.le_succ i) (ih (i + 1) j h1)
    · simp only [selectedIndicesAux, if_neg hb] at h
      exact le_trans (Nat.le_succ i) (ih (i + 1) j h)

theorem selectedIndicesAux_nodup :
    ∀ (i : ℕ) (bs : List Bool), (selectedIndicesAux i bs).Nodup := by
  intro i bs
  induction bs generalizing i with
  | nil => exact List.nodup_nil
  | cons b bs ih =>
    by_cases hb : b
    · simp only [selectedIndicesAux, if_pos hb]
      refine List.Nodup.cons ?_ (ih (i + 1))
      intro hmem
      have := selectedIndicesAux_ge (i + 1) bs i hmem
      omega
    · simp only [selectedIndicesAux, if_neg hb]
      exact ih (i + 1)

theorem selectedIndices_nodup (sel : List Bool) : (selectedIndices sel).Nodup :=
  selectedIndicesAux_nodup 0 sel

end LogStoreLemmas

/-- C6: after every mutating log store operation (record a result, delete
the selected rows, clear all), the persisted collection as subsequently
listed is non-increasing (newest first) in the (Date, Time) key. -/
theorem mutations_listAll_sorted (store : Option LogTable) (rec : ExperimentRecord)
    (t t2 : LogTable) (sel : List Bool) :
    SortedByKeyDesc (listAll (recordResult store rec)) ∧
    SortedByKeyDesc (listAll (deleteSelected t sel).1) ∧
    SortedByKeyDesc (listAll (clearAll t2)) :=
  ⟨sortDesc_sorted _, sortDesc_sorted _, sortDesc_sorted _⟩

/-- C7: appending a record and then listing yields a collection containing
that record with a blank comment normalised to the empty string and every
other field unchanged (normComment changes only a missing comment), and no
listed row ever carries a null (None/NaN) comment cell. -/
theorem append_roundtrip_no_null (store : Option LogTable) (rec : ExperimentRecord)
    (t : LogTable) (r : ExperimentRecord) :
    normComment rec ∈ listAll (recordResult store rec) ∧
    (r ∈ listAll t → r.comment ≠ none) := by
  constructor
  · have key : ∀ rows0 : List ExperimentRecord, rec ∈ rows0 →
        normComment rec ∈ sortDesc (fillna (fillna (sortDesc rows0))) := by
      intro rows0 h0
      have h1 : rec ∈ sortDesc rows0 := mem_sortDesc.mpr h0
      have h2 : normComment rec ∈ fillna (sortDesc rows0) :=
        List.mem_map.mpr ⟨rec, h1, rfl⟩
      have h3 : normComment (normComment rec) ∈ fillna (fillna (sortDesc rows0)) :=
        List.mem_map.mpr ⟨normComment rec, h2, rfl⟩
      rw [normComment_idem] at h3
      exact mem_sortDesc.mpr h3
    cases store with
    | none => exact key [rec] (by simp)
    | some t0 => exact key (t0.rows ++ [rec]) (by simp)
  · intro hr
    have h1 : r ∈ fillna t.rows := mem_sortDesc.mp hr
    obtain ⟨a, _, rfl⟩ := List.mem_map.mp h1
    exact comment_normComment a

/-- Witness for C7: recording a row with a missing (NaN) comment into an
empty store lists it back with the comment normalised to the empty string. -/
theorem append_roundtrip_no_null_witness :
    normComment
        { date := "2025-01-01", time := "12:00:00", updatedX := 0, updatedY := 0,
          m1Z := 0, D := 0, distToTarget := 0, comment := none } ∈
      listAll (recordResult none
        { date := "2025-01-01", time := "12:00:00", updatedX := 0, updatedY := 0,
          m1Z := 0, D := 0, distToTarget := 0, comment := none }) ∧
    ((⟨"2025-01-01", "12:00:00", 0, 0, 0, 0, 0, some ""⟩ : ExperimentRecord) ∈
        listAll ⟨standardColumns, []⟩ →
      (Option.some "") ≠ none) :=
  (append_roundtrip_no_null none
    { date := "2025-01-01", time := "12:00:00", updatedX := 0, updatedY := 0,
      m1Z := 0, D := 0, distToTarget := 0, comment := none }
    ⟨standardColumns, []⟩
    ⟨"2025-01-01", "12:00:00", 0, 0, 0, 0, 0, some ""⟩)

/-- C8: deleting with an empty selection is a silent no-op (the table is
unchanged and zero deletions are reported); with a non-empty selection the
remaining rows are exactly (up to the re-sort) the rows of the currently
displayed sorted collection at the unselected positions, the reported count
equals the number of selected positions, and those positions are pairwise
distinct. -/
theorem delete_selected_spec (t : LogTable) (sel : List Bool) :
    (selectedIndices sel).Nodup ∧
    (selectedIndices sel = [] → deleteSelected t sel = (t, 0)) ∧
    (selectedIndices sel ≠ [] →
      ((deleteSelected t sel).1.rows).Perm
        (dropIndices (listAll t) (selectedIndices sel)) ∧
      (deleteSelected t sel).2 = (selectedIndices sel).length) := by
  refine ⟨selectedIndices_nodup sel, ?_, ?_⟩
  · intro h
    simp [deleteSelected, h]
  · intro h
    have hd : deleteSelected t sel =
        ({ columns := t.columns,
           rows := fillna (sortDesc (dropIndices (listAll t) (selectedIndices sel))) },
         (selectedIndices sel).length) := by
      unfold deleteSelected
      rw [if_neg h]
    rw [hd]
    refine ⟨?_, rfl⟩
    have hnorm : ∀ r ∈ sortDesc (dropIndices (listAll t) (selectedIndices sel)),
        normComment r = r := by
      intro r hr
      exact listAll_normalized t r (mem_dropIndices (mem_sortDesc.mp hr))
    show (fillna (sortDesc (dropIndices (listAll t) (selectedIndices sel)))).Perm _
    rw [fillna_id_of_normalized _ hnorm]
    exact sortDesc_perm _

/-- Witness for C8: on the one-row sample table, the empty selection is a
no-op and the selection of row zero deletes exactly that row, reporting one
deletion. -/
theorem delete_selected_spec_witness :
    deleteSelected sampleTable [] = (sampleTable, 0) ∧
    (selectedIndices [true] ≠ [] ∧
      ((deleteSelected sampleTable [true]).1.rows).Perm
        (dropIndices (listAll sampleTable) (selectedIndices [true])) ∧
      (deleteSelected sampleTable [true]).2 = (selectedIndices [true]).length) := by
  have hne : selectedIndices [true] ≠ [] := by decide
  have h1 := (delete_selected_spec sampleTable []).2.1 (by decide)
  have h2 := (delete_selected_spec sampleTable [true]).2.2 hne
  exact ⟨h1, hne, h2.1, h2.2⟩

/-- C9: clearing all experiments leaves an empty table with the same column
schema: a subsequent listing returns the empty sequence, and the stored
columns are still exactly Date, Time, Updated X, Updated Y, M1 Z, D,
Distance to Target, Comment. -/
theorem clear_all_spec (t : LogTable) (h : t.columns = standardColumns) :
    listAll (clearAll t) = [] ∧ (clearAll t).columns = standardColumns := by
  refine ⟨?_, h⟩
  show sortDesc (fillna []) = []
  simp [sortDesc, fillna]

/-- Witness for C9 on the one-row sample table. -/
theorem clear_all_spec_witness :
    listAll (clearAll sampleTable) = [] ∧
    (clearAll sampleTable).columns = standardColumns :=
  clear_all_spec sampleTable rfl
